import Mathlib

/-!
Shallow embedding of the pre-packaged-rules polling hook from
`x-pack/plugins/security_solution/public/detections/containers/detection_engine/rules/use_pre_packaged_rules.tsx`.

The hook's observable behaviour is modelled as a trace of events: every call
into the HTTP api (`createPrepackagedRules`, `getPrePackagedRulesStatus`),
every React state mutation (`setLoading`, `setLoadingCreatePrePackagedRules`,
`setPrepackagedDataStatus`), every toast, every settlement of the promise
returned by `createElasticRules`, and every `window.setTimeout` scheduling.
The environment (api results, cancellation timing) is an explicit parameter,
so a session is a pure function from its environment to its event trace.
-/

namespace UsePrePackagedRules

/-- Response of `getPrePackagedRulesStatus`, restricted to the fields the hook
reads (source lines 108–114 and 181–187). Counter values are non-negative
integers. -/
structure StatusSnapshot where
  rules_custom_installed : Nat
  rules_installed : Nat
  rules_not_installed : Nat
  rules_not_updated : Nat
  timelines_installed : Nat
  timelines_not_installed : Nat
  timelines_not_updated : Nat
deriving Repr, DecidableEq

/-- The `prepackagedDataStatus` React state record (source lines 64–87).
Counter fields are `Option Nat` (`none` models the TypeScript `null`); the two
callback fields are modelled by a `Bool` recording whether they hold a function
(`true`) or `null` (`false`). -/
structure PrepackagedDataStatus where
  createPrePackagedRules : Bool
  refetchPrePackagedRulesStatus : Bool
  rulesCustomInstalled : Option Nat
  rulesInstalled : Option Nat
  rulesNotInstalled : Option Nat
  rulesNotUpdated : Option Nat
  timelinesInstalled : Option Nat
  timelinesNotInstalled : Option Nat
  timelinesNotUpdated : Option Nat
deriving Repr, DecidableEq

/-- The all-null record that both the initial state (lines 77–87) and the
fetch-failure reset (lines 119–129) assign. -/
def resetDataStatus : PrepackagedDataStatus :=
  { createPrePackagedRules := false
    refetchPrePackagedRulesStatus := false
    rulesCustomInstalled := none
    rulesInstalled := none
    rulesNotInstalled := none
    rulesNotUpdated := none
    timelinesInstalled := none
    timelinesNotInstalled := none
    timelinesNotUpdated := none }

/-- The record stored on a successful status response (lines 105–115 and
178–188): both callbacks installed, every counter copied from the response. -/
def dataStatusOf (s : StatusSnapshot) : PrepackagedDataStatus :=
  { createPrePackagedRules := true
    refetchPrePackagedRulesStatus := true
    rulesCustomInstalled := some s.rules_custom_installed
    rulesInstalled := some s.rules_installed
    rulesNotInstalled := some s.rules_not_installed
    rulesNotUpdated := some s.rules_not_updated
    timelinesInstalled := some s.timelines_installed
    timelinesNotInstalled := some s.timelines_not_installed
    timelinesNotUpdated := some s.timelines_not_updated }

/-- The seven counter fields of the status record, in source order. -/
def counterFields (d : PrepackagedDataStatus) : List (Option Nat) :=
  [d.rulesCustomInstalled, d.rulesInstalled, d.rulesNotInstalled,
   d.rulesNotUpdated, d.timelinesInstalled, d.timelinesNotInstalled,
   d.timelinesNotUpdated]

/-- Observable events of one hook session. `queryCall k aborted` records the
k-th `getPrePackagedRulesStatus` call and whether the shared abort signal had
already fired when the call was issued; `scheduleTimer k` records the
`window.setTimeout` that will run polling attempt `k`; `resolveP b` records the
promise returned by `createElasticRules` settling with value `b`. -/
inductive Event
  | setLoading (b : Bool)
  | setLoadingCreate (b : Bool)
  | setData (d : PrepackagedDataStatus)
  | triggerCall
  | queryCall (k : Nat) (aborted : Bool)
  | queryResolved (k : Nat) (s : StatusSnapshot)
  | queryRejected (k : Nat)
  | scheduleTimer (k : Nat)
  | toastSuccess
  | toastCreateFailure
  | toastFetchFailure
  | resolveP (b : Bool)
deriving Repr, DecidableEq

/-- The convergence test inlined in `reFetch` (source lines 171–174): the four
pending counters of the response are all zero. -/
def isConverged (s : StatusSnapshot) : Bool :=
  s.rules_not_installed == 0 && s.rules_not_updated == 0 &&
    s.timelines_not_installed == 0 && s.timelines_not_updated == 0

/-- The branch condition of the `reFetch` callback (source lines 169–176):
`isSubscribed && ((all four counters zero) || count > 100)`, where `count` is
`iterationTryOfFetchingPrePackagedCount` after its increment, i.e. the number
of status queries made so far in this session. -/
def stopCondition (isSubscribed : Bool) (s : StatusSnapshot) (count : Nat) : Bool :=
  isSubscribed && (isConverged s || decide (count > 100))

/-- When, relative to the polling loop, the effect cleanup
(`isSubscribed = false; abortCtrl.abort()`, source lines 221–224) runs.
`beforePoll k`: while the timer for attempt `k` is pending. `duringPoll k`:
while the k-th status query is in flight. `duringTrigger`: while
`createPrepackagedRules` is in flight. -/
inductive CancelPoint
  | duringTrigger
  | beforePoll (k : Nat)
  | duringPoll (k : Nat)
deriving Repr, DecidableEq

/-- Value of the captured `isSubscribed` flag at the check inside polling
attempt `j` (source line 170), for a given cancellation point. -/
def subscribedAt : Option CancelPoint → Nat → Bool
  | none, _ => true
  | some CancelPoint.duringTrigger, _ => false
  | some (CancelPoint.beforePoll k), j => decide (j < k)
  | some (CancelPoint.duringPoll k), j => decide (j < k)

/-- Whether the shared abort signal has already fired when the status query of
attempt `j` is issued. Modelled from the spec for the api client (its source is
not in the repository slice): the client honours an already-aborted signal by
rejecting the call, while a call issued before cancellation runs to completion
and its late response is discarded by the `isSubscribed` check (spec sections 5
and 6). -/
def abortedAtCall : Option CancelPoint → Nat → Bool
  | none, _ => false
  | some CancelPoint.duringTrigger, _ => true
  | some (CancelPoint.beforePoll k), j => decide (k ≤ j)
  | some (CancelPoint.duringPoll k), j => decide (k < j)

/-- Value of the `isSubscribed` flag at the check right after the trigger
resolves (source line 154) and at the catch handler (line 206). -/
def subscribedAfterTrigger : Option CancelPoint → Bool
  | some CancelPoint.duringTrigger => false
  | _ => true

/-- One scheduled polling attempt and everything after it (the `reFetch`
closure, source lines 162–199). Attempt `k`: the timer fires, the counter is
incremented (so `count = k`), `getPrePackagedRulesStatus` is called; a
rejection of that call is not caught by any handler (the surrounding try/catch
of `createElasticRules` does not extend into the `setTimeout` callback), so the
trace simply stops there; on a resolved response the branch condition decides
between the terminal block (lines 177–195) and rescheduling (line 197). `fuel`
bounds the recursion depth and is chosen large enough to be unreachable. -/
def reFetch (q : Nat → Except Unit StatusSnapshot) (cp : Option CancelPoint) :
    Nat → Nat → List Event
  | _, 0 => []
  | k, fuel + 1 =>
    Event.queryCall k (abortedAtCall cp k) ::
      (if abortedAtCall cp k then [Event.queryRejected k]
       else
        match q k with
        | Except.error _ => [Event.queryRejected k]
        | Except.ok s =>
          Event.queryResolved k s ::
            (if stopCondition (subscribedAt cp k) s k then
              [Event.setLoadingCreate false, Event.setData (dataStatusOf s),
               Event.toastSuccess, Event.resolveP true]
             else
              Event.scheduleTimer (k + 1) :: reFetch q cp (k + 1) fuel))

/-- The five nullable gating props of the hook (source lines 40–46). -/
structure Gates where
  canUserCRUD : Option Bool
  hasIndexWrite : Option Bool
  isAuthenticated : Option Bool
  hasEncryptionKey : Option Bool
  isSignalIndexExists : Option Bool
deriving Repr, DecidableEq

/-- JavaScript truthiness of a `boolean | null` prop: `null` and `false` are
falsy, `true` is truthy. -/
def truthy : Option Bool → Bool
  | none => false
  | some b => b

/-- The conjunction guarding the trigger (source lines 142–148). -/
def gatesPass (g : Gates) : Bool :=
  truthy g.canUserCRUD && truthy g.hasIndexWrite && truthy g.isAuthenticated &&
    truthy g.hasEncryptionKey && truthy g.isSignalIndexExists

/-- The `createElasticRules` session (source lines 139–217), as the event
trace determined by the gates, the trigger outcome, the status-query outcomes
`q`, and the cancellation point. Gates failing: only `resolve(false)` (line
203). Trigger rejection: handled by the catch block (lines 205–215), which is
guarded by `isSubscribed`. Trigger success: polling starts (lines 154–201)
only if still subscribed. -/
def createElasticRules (g : Gates) (trigger : Except Unit Unit)
    (q : Nat → Except Unit StatusSnapshot) (cp : Option CancelPoint) :
    List Event :=
  if gatesPass g then
    Event.setLoadingCreate true :: Event.triggerCall ::
      (match trigger with
       | Except.error _ =>
         if subscribedAfterTrigger cp then
           [Event.setLoadingCreate false, Event.toastCreateFailure,
            Event.resolveP false]
         else []
       | Except.ok _ =>
         if subscribedAfterTrigger cp then
           Event.scheduleTimer 1 :: reFetch q cp 1 200
         else [])
  else [Event.resolveP false]

/-- The initial status fetch `fetchPrePackagedRules` (source lines 97–137):
`setLoading(true)`, then on success the full record is stored, on failure the
record is reset wholesale and one fetch-failure toast is emitted, and finally
`setLoading(false)`; every mutation is guarded by `isSubscribed`. -/
def fetchPrePackagedRules (isSubscribed : Bool)
    (result : Except Unit StatusSnapshot) : List Event :=
  Event.setLoading true ::
    ((match result with
      | Except.ok s => if isSubscribed then [Event.setData (dataStatusOf s)] else []
      | Except.error _ =>
        if isSubscribed then
          [Event.setData resetDataStatus, Event.toastFetchFailure]
        else []) ++
     (if isSubscribed then [Event.setLoading false] else []))

/-- The two flags the effect cleanup writes (source lines 221–224). -/
structure SessionFlags where
  isSubscribed : Bool
  aborted : Bool
deriving Repr, DecidableEq

/-- The effect cleanup itself: `isSubscribed = false; abortCtrl.abort()`. -/
def cancelSession (_f : SessionFlags) : SessionFlags :=
  { isSubscribed := false, aborted := true }

/-- Recogniser for status-query call events. -/
def isQueryCallEvent : Event → Bool
  | Event.queryCall _ _ => true
  | _ => false

/-- Number of `getPrePackagedRulesStatus` calls recorded in a trace. -/
def qCalls (tr : List Event) : Nat :=
  tr.countP isQueryCallEvent

/-- Recogniser for `setPrepackagedDataStatus` events. -/
def isSetDataEvent : Event → Bool
  | Event.setData _ => true
  | _ => false

/-- Recogniser for create-failure toast events. -/
def isCreateFailureToast : Event → Bool
  | Event.toastCreateFailure => true
  | _ => false

/-- Recogniser for fetch-failure toast events. -/
def isFetchFailureToast : Event → Bool
  | Event.toastFetchFailure => true
  | _ => false

/-- The record stored by the most recent `setPrepackagedDataStatus` event of a
trace, if any. -/
def lastSetData : List Event → Option PrepackagedDataStatus
  | [] => none
  | Event.setData d :: tr => some ((lastSetData tr).getD d)
  | _ :: tr => lastSetData tr

/-- Scheduling discipline checker. State: is a timer pending, is a query in
flight. A timer may be scheduled only when no timer is pending and no query is
in flight; a query call consumes the pending timer and requires no query in
flight; resolutions and rejections require an in-flight query. -/
def seqState : Bool → Bool → List Event → Bool
  | _, _, [] => true
  | tp, qf, e :: tr =>
    match e with
    | Event.scheduleTimer _ => !tp && !qf && seqState true false tr
    | Event.queryCall _ _ => tp && !qf && seqState false true tr
    | Event.queryResolved _ _ => qf && seqState tp false tr
    | Event.queryRejected _ => qf && seqState tp false tr
    | _ => seqState tp qf tr

/-- Trace of the polling attempts `i, i+1, ..., i+n-1`, assuming each of them
gets a resolved response and does not take the terminal branch. -/
def pollSegment (snap : Nat → StatusSnapshot) : Nat → Nat → List Event
  | _, 0 => []
  | i, n + 1 =>
    Event.queryCall i false :: Event.queryResolved i (snap i) ::
      Event.scheduleTimer (i + 1) :: pollSegment snap (i + 1) n

/-- A gate record with every prop `true`. -/
def gAll : Gates :=
  { canUserCRUD := some true
    hasIndexWrite := some true
    isAuthenticated := some true
    hasEncryptionKey := some true
    isSignalIndexExists := some true }

/-- A snapshot with one rule still not installed: not converged. -/
def snapPending : StatusSnapshot :=
  { rules_custom_installed := 0
    rules_installed := 3
    rules_not_installed := 1
    rules_not_updated := 0
    timelines_installed := 0
    timelines_not_installed := 0
    timelines_not_updated := 0 }

/-- A snapshot with all four pending counters zero: converged. -/
def snapDone : StatusSnapshot :=
  { rules_custom_installed := 2
    rules_installed := 4
    rules_not_installed := 0
    rules_not_updated := 0
    timelines_installed := 5
    timelines_not_installed := 0
    timelines_not_updated := 0 }

lemma pollSegment_qCalls (snap : Nat → StatusSnapshot) :
    ∀ n i, qCalls (pollSegment snap i n) = n := by
  intro n
  induction n with
  | zero => intro i; rfl
  | succ n ih =>
    intro i
    have h := ih (i + 1)
    simp only [qCalls] at h
    simp [pollSegment, qCalls, List.countP_cons, isQueryCallEvent, h]

lemma lastSetData_append (l1 l2 : List Event) (d : PrepackagedDataStatus)
    (h : lastSetData l2 = some d) : lastSetData (l1 ++ l2) = some d := by
  induction l1 with
  | nil => simpa using h
  | cons e rest ih => cases e <;> simp [lastSetData, ih, h]

lemma pollSegment_no_setData (snap : Nat → StatusSnapshot) :
    ∀ n i, (pollSegment snap i n).countP isSetDataEvent = 0 := by
  intro n
  induction n with
  | zero => intro i; rfl
  | succ n ih => intro i; simp [pollSegment, List.countP_cons, isSetDataEvent, ih]

lemma resolveP_not_mem_pollSegment (snap : Nat → StatusSnapshot) (b : Bool) :
    ∀ n i, Event.resolveP b ∉ pollSegment snap i n := by
  intro n
  induction n with
  | zero => intro i h; simp [pollSegment] at h
  | succ n ih =>
    intro i h
    simp only [pollSegment, List.mem_cons] at h
    rcases h with h | h | h | h
    · exact Event.noConfusion h
    · exact Event.noConfusion h
    · exact Event.noConfusion h
    · exact ih (i + 1) h

lemma toastSuccess_not_mem_pollSegment (snap : Nat → StatusSnapshot) :
    ∀ n i, Event.toastSuccess ∉ pollSegment snap i n := by
  intro n
  induction n with
  | zero => intro i h; simp [pollSegment] at h
  | succ n ih =>
    intro i h
    simp only [pollSegment, List.mem_cons] at h
    rcases h with h | h | h | h
    · exact Event.noConfusion h
    · exact Event.noConfusion h
    · exact Event.noConfusion h
    · exact ih (i + 1) h

lemma reFetch_run (snap : Nat → StatusSnapshot) (cp : Option CancelPoint) (T : Nat)
    (hsub : ∀ j, 1 ≤ j → j ≤ T → subscribedAt cp j = true)
    (habt : ∀ j, 1 ≤ j → j ≤ T → abortedAtCall cp j = false)
    (hnostop : ∀ j, 1 ≤ j → j < T → stopCondition true (snap j) j = false)
    (hstop : stopCondition true (snap T) T = true) :
    ∀ fuel i, 1 ≤ i → i ≤ T → T - i < fuel →
      reFetch (fun j => Except.ok (snap j)) cp i fuel =
        pollSegment snap i (T - i) ++
          [Event.queryCall T false, Event.queryResolved T (snap T),
           Event.setLoadingCreate false, Event.setData (dataStatusOf (snap T)),
           Event.toastSuccess, Event.resolveP true] := by
  intro fuel
  induction fuel with
  | zero => intro i h1 h2 h3; omega
  | succ fuel ih =>
    intro i h1 h2 h3
    have ha : abortedAtCall cp i = false := habt i h1 h2
    have hs : subscribedAt cp i = true := hsub i h1 h2
    by_cases hiT : i = T
    · subst hiT
      simp [reFetch, ha, hs, hstop, Nat.sub_self, pollSegment]
    · have hiT' : i < T := by omega
      have hns := hnostop i h1 hiT'
      have hrw : T - i = (T - (i + 1)) + 1 := by omega
      simp only [reFetch, ha, Bool.false_eq_true, if_false, hs, hns,
        ih (i + 1) (by omega) (by omega) (by omega), hrw, pollSegment]
      simp

lemma reFetch_cancelled (snap : Nat → StatusSnapshot) (c : Nat)
    (hnostop : ∀ j, 1 ≤ j → j < c → stopCondition true (snap j) j = false) :
    ∀ fuel i, 1 ≤ i → i ≤ c → c - i < fuel →
      reFetch (fun j => Except.ok (snap j)) (some (CancelPoint.beforePoll c)) i fuel =
        pollSegment snap i (c - i) ++
          [Event.queryCall c true, Event.queryRejected c] := by
  intro fuel
  induction fuel with
  | zero => intro i h1 h2 h3; omega
  | succ fuel ih =>
    intro i h1 h2 h3
    by_cases hic : i = c
    · have ha : abortedAtCall (some (CancelPoint.beforePoll c)) i = true := by
        simp [abortedAtCall]; omega
      rw [hic] at *
      simp [reFetch, ha, Nat.sub_self, pollSegment]
    · have hic' : i < c := by omega
      have ha : abortedAtCall (some (CancelPoint.beforePoll c)) i = false := by
        simp [abortedAtCall]; omega
      have hs : subscribedAt (some (CancelPoint.beforePoll c)) i = true := by
        simp [subscribedAt]; omega
      have hns := hnostop i h1 hic'
      have hrw : c - i = (c - (i + 1)) + 1 := by omega
      simp only [reFetch, ha, Bool.false_eq_true, if_false, hs, hns,
        ih (i + 1) (by omega) (by omega) (by omega), hrw, pollSegment]
      simp

lemma reFetch_midflight (snap : Nat → StatusSnapshot) (c : Nat)
    (hnostop : ∀ j, 1 ≤ j → j < c → stopCondition true (snap j) j = false) :
    ∀ fuel i, 1 ≤ i → i ≤ c → c - i + 1 < fuel →
      reFetch (fun j => Except.ok (snap j)) (some (CancelPoint.duringPoll c)) i fuel =
        pollSegment snap i (c - i + 1) ++
          [Event.queryCall (c + 1) true, Event.queryRejected (c + 1)] := by
  intro fuel
  induction fuel with
  | zero => intro i h1 h2 h3; omega
  | succ fuel ih =>
    intro i h1 h2 h3
    by_cases hic : i = c
    · have ha : abortedAtCall (some (CancelPoint.duringPoll c)) i = false := by
        simp [abortedAtCall]; omega
      have hs : subscribedAt (some (CancelPoint.duringPoll c)) i = false := by
        simp [subscribedAt]; omega
      have ha2 : abortedAtCall (some (CancelPoint.duringPoll c)) (i + 1) = true := by
        simp [abortedAtCall]; omega
      obtain ⟨fuel', rfl⟩ : ∃ f, fuel = f + 1 := ⟨fuel - 1, by omega⟩
      rw [hic] at *
      have hrw : c - c + 1 = 1 := by omega
      simp [reFetch, ha, hs, ha2, stopCondition, hrw, pollSegment]
    · have hic' : i < c := by omega
      have ha : abortedAtCall (some (CancelPoint.duringPoll c)) i = false := by
        simp [abortedAtCall]; omega
      have hs : subscribedAt (some (CancelPoint.duringPoll c)) i = true := by
        simp [subscribedAt]; omega
      have hns := hnostop i h1 hic'
      have hrw : c - i + 1 = (c - (i + 1) + 1) + 1 := by omega
      simp only [reFetch, ha, Bool.false_eq_true, if_false, hs, hns,
        ih (i + 1) (by omega) (by omega) (by omega), hrw, pollSegment]
      have hrw2 : c - i = c - (i + 1) + 1 := by omega
      rw [hrw2]
      simp [pollSegment]

lemma session_midflight (g : Gates) (snap : Nat → StatusSnapshot) (c : Nat)
    (hg : gatesPass g = true) (hc1 : 1 ≤ c) (hc : c ≤ 101)
    (hnostop : ∀ j, 1 ≤ j → j < c → stopCondition true (snap j) j = false) :
    createElasticRules g (Except.ok ()) (fun j => Except.ok (snap j))
        (some (CancelPoint.duringPoll c)) =
      Event.setLoadingCreate true :: Event.triggerCall :: Event.scheduleTimer 1 ::
        (pollSegment snap 1 c ++
          [Event.queryCall (c + 1) true, Event.queryRejected (c + 1)]) := by
  have hrw : c - 1 + 1 = c := by omega
  have h := reFetch_midflight snap c hnostop 200 1 le_rfl hc1 (by omega)
  rw [hrw] at h
  simp only [createElasticRules, hg, if_true, subscribedAfterTrigger, h]

lemma session_run (g : Gates) (snap : Nat → StatusSnapshot)
    (cp : Option CancelPoint) (T : Nat)
    (hg : gatesPass g = true) (hat : subscribedAfterTrigger cp = true)
    (hsub : ∀ j, 1 ≤ j → j ≤ T → subscribedAt cp j = true)
    (habt : ∀ j, 1 ≤ j → j ≤ T → abortedAtCall cp j = false)
    (hnostop : ∀ j, 1 ≤ j → j < T → stopCondition true (snap j) j = false)
    (hstop : stopCondition true (snap T) T = true)
    (hT1 : 1 ≤ T) (hT : T ≤ 101) :
    createElasticRules g (Except.ok ()) (fun j => Except.ok (snap j)) cp =
      Event.setLoadingCreate true :: Event.triggerCall :: Event.scheduleTimer 1 ::
        (pollSegment snap 1 (T - 1) ++
          [Event.queryCall T false, Event.queryResolved T (snap T),
           Event.setLoadingCreate false, Event.setData (dataStatusOf (snap T)),
           Event.toastSuccess, Event.resolveP true]) := by
  simp only [createElasticRules, hg, if_true, hat,
    reFetch_run snap cp T hsub habt hnostop hstop 200 1 le_rfl hT1 (by omega)]

lemma session_cancelled (g : Gates) (snap : Nat → StatusSnapshot) (c : Nat)
    (hg : gatesPass g = true) (hc1 : 1 ≤ c) (hc : c ≤ 101)
    (hnostop : ∀ j, 1 ≤ j → j < c → stopCondition true (snap j) j = false) :
    createElasticRules g (Except.ok ()) (fun j => Except.ok (snap j))
        (some (CancelPoint.beforePoll c)) =
      Event.setLoadingCreate true :: Event.triggerCall :: Event.scheduleTimer 1 ::
        (pollSegment snap 1 (c - 1) ++
          [Event.queryCall c true, Event.queryRejected c]) := by
  simp only [createElasticRules, hg, if_true, subscribedAfterTrigger,
    reFetch_cancelled snap c hnostop 200 1 le_rfl hc1 (by omega)]

lemma lastSetData_skip (e : Event) (tr : List Event)
    (h : isSetDataEvent e = false) : lastSetData (e :: tr) = lastSetData tr := by
  cases e <;> first | rfl | simp [isSetDataEvent] at h

lemma reFetch_seqState (q : Nat → Except Unit StatusSnapshot)
    (cp : Option CancelPoint) :
    ∀ fuel k, seqState true false (reFetch q cp k fuel) = true := by
  intro fuel
  induction fuel with
  | zero => intro k; rfl
  | succ fuel ih =>
    intro k
    simp only [reFetch]
    by_cases ha : abortedAtCall cp k
    · simp [ha, seqState]
    · simp only [ha, Bool.false_eq_true, if_false]
      cases hq : q k with
      | error e => simp [seqState]
      | ok s =>
        by_cases hstop : stopCondition (subscribedAt cp k) s k
        · simp [hstop, seqState]
        · simp [hstop, seqState, ih]

lemma truthy_eq_true (o : Option Bool) : truthy o = true ↔ o = some true := by
  cases o with
  | none => simp [truthy]
  | some b => cases b <;> simp [truthy]

/-- Claim C1 (code bug): when the trigger succeeds and the first status query
of the polling phase rejects, the session dies silently: the rejection escapes
the `setTimeout` callback, so no failure toast is emitted, the status record is
never written, and the promise returned by `createElasticRules` never settles
(no `resolveP` event), contradicting the specified Failed-state reporting. -/
theorem claim1_silent_query_failure :
    createElasticRules gAll (Except.ok ()) (fun _ => Except.error ()) none =
      [Event.setLoadingCreate true, Event.triggerCall, Event.scheduleTimer 1,
       Event.queryCall 1 false, Event.queryRejected 1] ∧
    Event.resolveP true ∉
      createElasticRules gAll (Except.ok ()) (fun _ => Except.error ()) none ∧
    Event.resolveP false ∉
      createElasticRules gAll (Except.ok ()) (fun _ => Except.error ()) none ∧
    Event.toastCreateFailure ∉
      createElasticRules gAll (Except.ok ()) (fun _ => Except.error ()) none ∧
    (createElasticRules gAll (Except.ok ())
        (fun _ => Except.error ()) none).countP isSetDataEvent = 0 := by
  decide

/-- Claim C2 (amended): if no snapshot ever satisfies the convergence test,
the session terminates after exactly 101 status-query calls, not 100: the cap
check is `count > 100` with the counter incremented before the query, so
termination happens on the 101st attempt; the 101st snapshot is the one
retained. -/
theorem claim2_exhausted_after_101_calls (g : Gates) (snap : Nat → StatusSnapshot)
    (hg : gatesPass g = true) (hnc : ∀ k, isConverged (snap k) = false) :
    qCalls (createElasticRules g (Except.ok ())
      (fun j => Except.ok (snap j)) none) = 101 ∧
    lastSetData (createElasticRules g (Except.ok ())
        (fun j => Except.ok (snap j)) none) = some (dataStatusOf (snap 101)) ∧
    Event.resolveP true ∈
      createElasticRules g (Except.ok ()) (fun j => Except.ok (snap j)) none := by
  have hrun := session_run g snap none 101 hg rfl
    (fun j _ _ => rfl) (fun j _ _ => rfl)
    (fun j h1 hlt => by simp [stopCondition, hnc j]; omega)
    (by simp [stopCondition])
    (by omega) (by omega)
  rw [hrun]
  refine ⟨?_, ?_, ?_⟩
  · have hps := pollSegment_qCalls snap (101 - 1) 1
    simp only [qCalls] at hps ⊢
    simp [List.countP_cons, List.countP_append, isQueryCallEvent, hps]
  · have htail : lastSetData
        [Event.queryCall 101 false, Event.queryResolved 101 (snap 101),
         Event.setLoadingCreate false, Event.setData (dataStatusOf (snap 101)),
         Event.toastSuccess, Event.resolveP true] =
        some (dataStatusOf (snap 101)) := rfl
    rw [lastSetData_skip (Event.setLoadingCreate true) _ rfl,
        lastSetData_skip Event.triggerCall _ rfl,
        lastSetData_skip (Event.scheduleTimer 1) _ rfl]
    exact lastSetData_append _ _ _ htail
  · simp

set_option maxRecDepth 4000 in
/-- Claim C2 counterexample: with a constant never-converging snapshot stream
the session makes 101 status-query calls, not the 100 the claim states. -/
theorem claim2_counterexample :
    qCalls (createElasticRules gAll (Except.ok ())
      (fun _ => Except.ok snapPending) none) = 101 ∧
    ¬ qCalls (createElasticRules gAll (Except.ok ())
      (fun _ => Except.ok snapPending) none) = 100 := by
  decide

/-- Claim C2 witness: the amended theorem applied to the constant
never-converging stream. -/
theorem claim2_witness :
    gatesPass gAll = true ∧
    qCalls (createElasticRules gAll (Except.ok ())
      (fun _ => Except.ok snapPending) none) = 101 :=
  ⟨by decide,
   (claim2_exhausted_after_101_calls gAll (fun _ => snapPending) (by decide)
     (fun _ => rfl)).1⟩

/-- Claim C3 counterexample: cancellation while the timer for attempt 2 is
pending does not prevent a further status-query call: the timer is never
cleared by the cleanup, so the callback fires and issues query 2 with the
already-aborted signal (the trailing `queryCall 2 true` event). -/
theorem claim3_counterexample :
    createElasticRules gAll (Except.ok ()) (fun _ => Except.ok snapPending)
        (some (CancelPoint.beforePoll 2)) =
      [Event.setLoadingCreate true, Event.triggerCall, Event.scheduleTimer 1,
       Event.queryCall 1 false, Event.queryResolved 1 snapPending,
       Event.scheduleTimer 2, Event.queryCall 2 true, Event.queryRejected 2] ∧
    Event.queryCall 2 true ∈
      createElasticRules gAll (Except.ok ()) (fun _ => Except.ok snapPending)
        (some (CancelPoint.beforePoll 2)) := by
  decide

/-- Claim C3 (amended): after cancellation during polling, exactly one more
status-query call is made (the pending timer is never cleared by the cleanup,
so its callback fires and issues the call with the aborted signal, which
rejects and ends the session), but no state mutation, toast, or promise
settlement ever happens after cancellation. Both cancellation modes are
covered. First part: cancellation while the timer for attempt `c` is pending —
the trace ends with the one late aborted call. Second part: cancellation while
query `c` is in flight — the response still arrives (`queryResolved c`) and is
discarded with no state mutation regardless of its content (nothing is assumed
about snapshot `c`, converged or not), after which the rescheduled attempt
`c + 1` is the one late aborted call. In both parts the whole trace carries no
`setData`, no toast, and no `resolveP`. -/
theorem claim3_one_late_call_no_mutation (g : Gates) (snap : Nat → StatusSnapshot)
    (c : Nat) (hg : gatesPass g = true) (hc1 : 1 ≤ c) (hc : c ≤ 101)
    (hnostop : ∀ j, 1 ≤ j → j < c → stopCondition true (snap j) j = false) :
    (createElasticRules g (Except.ok ()) (fun j => Except.ok (snap j))
        (some (CancelPoint.beforePoll c)) =
      Event.setLoadingCreate true :: Event.triggerCall :: Event.scheduleTimer 1 ::
        (pollSegment snap 1 (c - 1) ++
          [Event.queryCall c true, Event.queryRejected c]) ∧
     qCalls (createElasticRules g (Except.ok ()) (fun j => Except.ok (snap j))
       (some (CancelPoint.beforePoll c))) = c ∧
     Event.resolveP true ∉
       createElasticRules g (Except.ok ()) (fun j => Except.ok (snap j))
         (some (CancelPoint.beforePoll c)) ∧
     Event.resolveP false ∉
       createElasticRules g (Except.ok ()) (fun j => Except.ok (snap j))
         (some (CancelPoint.beforePoll c)) ∧
     Event.toastSuccess ∉
       createElasticRules g (Except.ok ()) (fun j => Except.ok (snap j))
         (some (CancelPoint.beforePoll c)) ∧
     (createElasticRules g (Except.ok ()) (fun j => Except.ok (snap j))
       (some (CancelPoint.beforePoll c))).countP isSetDataEvent = 0) ∧
    (createElasticRules g (Except.ok ()) (fun j => Except.ok (snap j))
        (some (CancelPoint.duringPoll c)) =
      Event.setLoadingCreate true :: Event.triggerCall :: Event.scheduleTimer 1 ::
        (pollSegment snap 1 c ++
          [Event.queryCall (c + 1) true, Event.queryRejected (c + 1)]) ∧
     qCalls (createElasticRules g (Except.ok ()) (fun j => Except.ok (snap j))
       (some (CancelPoint.duringPoll c))) = c + 1 ∧
     Event.resolveP true ∉
       createElasticRules g (Except.ok ()) (fun j => Except.ok (snap j))
         (some (CancelPoint.duringPoll c)) ∧
     Event.resolveP false ∉
       createElasticRules g (Except.ok ()) (fun j => Except.ok (snap j))
         (some (CancelPoint.duringPoll c)) ∧
     Event.toastSuccess ∉
       createElasticRules g (Except.ok ()) (fun j => Except.ok (snap j))
         (some (CancelPoint.duringPoll c)) ∧
     (createElasticRules g (Except.ok ()) (fun j => Except.ok (snap j))
       (some (CancelPoint.duringPoll c))).countP isSetDataEvent = 0) := by
  constructor
  · have h := session_cancelled g snap c hg hc1 hc hnostop
    rw [h]
    have hps := pollSegment_qCalls snap (c - 1) 1
    simp only [qCalls] at hps
    refine ⟨rfl, ?_, ?_, ?_, ?_, ?_⟩
    · simp only [qCalls]
      simp [List.countP_cons, List.countP_append, isQueryCallEvent, hps]
      omega
    · simp [List.mem_append, resolveP_not_mem_pollSegment]
    · simp [List.mem_append, resolveP_not_mem_pollSegment]
    · simp [List.mem_append, toastSuccess_not_mem_pollSegment]
    · simp [List.countP_cons, List.countP_append, isSetDataEvent,
        pollSegment_no_setData]
  · have h := session_midflight g snap c hg hc1 hc hnostop
    rw [h]
    have hps := pollSegment_qCalls snap c 1
    simp only [qCalls] at hps
    refine ⟨rfl, ?_, ?_, ?_, ?_, ?_⟩
    · simp only [qCalls]
      simp [List.countP_cons, List.countP_append, isQueryCallEvent, hps]
    · simp [List.mem_append, resolveP_not_mem_pollSegment]
    · simp [List.mem_append, resolveP_not_mem_pollSegment]
    · simp [List.mem_append, toastSuccess_not_mem_pollSegment]
    · simp [List.countP_cons, List.countP_append, isSetDataEvent,
        pollSegment_no_setData]

/-- Claim C3 witness: the amended theorem applied with a constant pending
snapshot, once at cancellation while the timer for attempt 2 is pending and
once at cancellation while query 2 is in flight. -/
theorem claim3_witness :
    gatesPass gAll = true ∧ 1 ≤ 2 ∧ 2 ≤ 101 ∧
    qCalls (createElasticRules gAll (Except.ok ())
      (fun _ => Except.ok snapPending) (some (CancelPoint.beforePoll 2))) = 2 ∧
    qCalls (createElasticRules gAll (Except.ok ())
      (fun _ => Except.ok snapPending) (some (CancelPoint.duringPoll 2))) = 3 :=
  ⟨by decide, by omega, by omega,
   (claim3_one_late_call_no_mutation gAll (fun _ => snapPending) 2 (by decide)
     (by omega) (by omega) (fun j h1 h2 => by
       have hj : j = 1 := by omega
       subst hj
       decide)).1.2.1,
   (claim3_one_late_call_no_mutation gAll (fun _ => snapPending) 2 (by decide)
     (by omega) (by omega) (fun j h1 h2 => by
       have hj : j = 1 := by omega
       subst hj
       decide)).2.2.1⟩

/-- Claim C4 (confirmed): if the convergence test first succeeds on attempt
`k ≤ 100`, the session terminates with exactly `k` status-query calls, the
k-th snapshot is the one stored, and the success path runs (success toast and
promise resolution with `true`). -/
theorem claim4_converged_at_k (g : Gates) (snap : Nat → StatusSnapshot) (k : Nat)
    (hg : gatesPass g = true) (hk1 : 1 ≤ k) (hk : k ≤ 100)
    (hbefore : ∀ j, 1 ≤ j → j < k → isConverged (snap j) = false)
    (hconv : isConverged (snap k) = true) :
    qCalls (createElasticRules g (Except.ok ())
      (fun j => Except.ok (snap j)) none) = k ∧
    lastSetData (createElasticRules g (Except.ok ())
        (fun j => Except.ok (snap j)) none) = some (dataStatusOf (snap k)) ∧
    Event.resolveP true ∈
      createElasticRules g (Except.ok ()) (fun j => Except.ok (snap j)) none ∧
    Event.toastSuccess ∈
      createElasticRules g (Except.ok ()) (fun j => Except.ok (snap j)) none := by
  have hrun := session_run g snap none k hg rfl
    (fun j _ _ => rfl) (fun j _ _ => rfl)
    (fun j h1 hlt => by simp [stopCondition, hbefore j h1 hlt]; omega)
    (by simp [stopCondition, hconv])
    hk1 (by omega)
  rw [hrun]
  have hps := pollSegment_qCalls snap (k - 1) 1
  simp only [qCalls] at hps
  refine ⟨?_, ?_, ?_, ?_⟩
  · simp only [qCalls]
    simp [List.countP_cons, List.countP_append, isQueryCallEvent, hps]
    omega
  · have htail : lastSetData
        [Event.queryCall k false, Event.queryResolved k (snap k),
         Event.setLoadingCreate false, Event.setData (dataStatusOf (snap k)),
         Event.toastSuccess, Event.resolveP true] =
        some (dataStatusOf (snap k)) := rfl
    rw [lastSetData_skip (Event.setLoadingCreate true) _ rfl,
        lastSetData_skip Event.triggerCall _ rfl,
        lastSetData_skip (Event.scheduleTimer 1) _ rfl]
    exact lastSetData_append _ _ _ htail
  · simp
  · simp

/-- Claim C4 witness: convergence on the very first attempt. -/
theorem claim4_witness :
    gatesPass gAll = true ∧ 1 ≤ 1 ∧ 1 ≤ 100 ∧ isConverged snapDone = true ∧
    qCalls (createElasticRules gAll (Except.ok ())
      (fun _ => Except.ok snapDone) none) = 1 :=
  ⟨by decide, by omega, by omega, by decide,
   (claim4_converged_at_k gAll (fun _ => snapDone) 1 (by decide) (by omega)
     (by omega) (fun j h1 h2 => by omega) (by decide)).1⟩

/-- Claim C5 (confirmed): when the gates pass, the trigger fails, and the hook
is still subscribed when the rejection is handled, the session's whole trace
is the catch block: no status query is ever issued, exactly one create-failure
toast is emitted, and the promise resolves `false`. -/
theorem claim5_trigger_failure (g : Gates) (q : Nat → Except Unit StatusSnapshot)
    (cp : Option CancelPoint)
    (hg : gatesPass g = true) (hat : subscribedAfterTrigger cp = true) :
    createElasticRules g (Except.error ()) q cp =
      [Event.setLoadingCreate true, Event.triggerCall,
       Event.setLoadingCreate false, Event.toastCreateFailure,
       Event.resolveP false] ∧
    qCalls (createElasticRules g (Except.error ()) q cp) = 0 ∧
    (createElasticRules g (Except.error ()) q cp).countP
      isCreateFailureToast = 1 ∧
    Event.resolveP false ∈ createElasticRules g (Except.error ()) q cp := by
  have h : createElasticRules g (Except.error ()) q cp =
      [Event.setLoadingCreate true, Event.triggerCall,
       Event.setLoadingCreate false, Event.toastCreateFailure,
       Event.resolveP false] := by
    simp [createElasticRules, hg, hat]
  exact ⟨h, by rw [h]; rfl, by rw [h]; rfl, by rw [h]; simp⟩

/-- Claim C5 witness: the theorem applied to a failing trigger with all gates
true and no cancellation. -/
theorem claim5_witness :
    gatesPass gAll = true ∧
    qCalls (createElasticRules gAll (Except.error ())
      (fun _ => Except.ok snapDone) none) = 0 :=
  ⟨by decide,
   (claim5_trigger_failure gAll (fun _ => Except.ok snapDone) none
     (by decide) rfl).2.1⟩

/-- Claim C6 (confirmed): in every session trace, a timer is scheduled only
when no timer is pending and no query is in flight, a query is issued only by
the unique pending timer and only when no query is in flight, and every
resolution matches the one outstanding query: status queries are strictly
sequential with at most one in flight and at most one pending timer. -/
theorem claim6_sequential_queries (g : Gates) (trigger : Except Unit Unit)
    (q : Nat → Except Unit StatusSnapshot) (cp : Option CancelPoint) :
    seqState false false (createElasticRules g trigger q cp) = true := by
  by_cases hg : gatesPass g
  · cases trigger with
    | error e =>
      by_cases hat : subscribedAfterTrigger cp <;>
        simp [createElasticRules, hg, hat, seqState]
    | ok u =>
      by_cases hat : subscribedAfterTrigger cp
      · have htr : createElasticRules g (Except.ok u) q cp =
            Event.setLoadingCreate true :: Event.triggerCall ::
              Event.scheduleTimer 1 :: reFetch q cp 1 200 := by
          simp [createElasticRules, hg, hat]
        rw [htr]
        generalize (200 : Nat) = fuel
        simp [seqState, reFetch_seqState]
      · simp [createElasticRules, hg, hat, seqState]
  · simp [createElasticRules, hg, seqState]

/-- Claim C7 (confirmed): for an attempt within the budget (`count ≤ 100`)
with the session still subscribed, the terminal branch is taken exactly when
the four pending counters of the snapshot are all zero. -/
theorem claim7_convergence_predicate (s : StatusSnapshot) (k : Nat)
    (hk : k ≤ 100) :
    stopCondition true s k = true ↔
      (s.rules_not_installed = 0 ∧ s.rules_not_updated = 0 ∧
       s.timelines_not_installed = 0 ∧ s.timelines_not_updated = 0) := by
  have h : ¬ (k > 100) := by omega
  simp [stopCondition, isConverged, h, and_assoc]

/-- Claim C7 witness: a snapshot with nonzero installed counters but all four
pending counters zero converges on attempt 3. -/
theorem claim7_witness :
    (3 ≤ 100) ∧ stopCondition true snapDone 3 = true :=
  ⟨by omega,
   (claim7_convergence_predicate snapDone 3 (by omega)).mpr
     ⟨rfl, rfl, rfl, rfl⟩⟩

/-- Claim C8 (confirmed): the effect cleanup is idempotent (running it twice
leaves the session flags exactly as running it once), and a cancellation that
occurs only after the session has already terminated leaves the session trace
unchanged: it is a no-op from a terminal state. -/
theorem claim8_cancel_idempotent :
    (∀ f : SessionFlags, cancelSession (cancelSession f) = cancelSession f) ∧
    (∀ (g : Gates) (snap : Nat → StatusSnapshot) (T c : Nat),
      gatesPass g = true →
      (∀ j, 1 ≤ j → j < T → stopCondition true (snap j) j = false) →
      stopCondition true (snap T) T = true →
      1 ≤ T → T ≤ 101 → T < c →
      createElasticRules g (Except.ok ()) (fun j => Except.ok (snap j))
          (some (CancelPoint.beforePoll c)) =
        createElasticRules g (Except.ok ()) (fun j => Except.ok (snap j)) none) := by
  constructor
  · intro f; rfl
  · intro g snap T c hg hnostop hstop hT1 hT hTc
    have h1 := session_run g snap (some (CancelPoint.beforePoll c)) T hg
      (by simp [subscribedAfterTrigger])
      (fun j h1 h2 => by simp [subscribedAt]; omega)
      (fun j h1 h2 => by simp [abortedAtCall]; omega)
      hnostop hstop hT1 hT
    have h2 := session_run g snap none T hg rfl
      (fun j _ _ => rfl) (fun j _ _ => rfl)
      hnostop hstop hT1 hT
    rw [h1, h2]

/-- Claim C8 witness: both parts at concrete inputs, with termination on
attempt 1 and cancellation nominally at attempt 2. -/
theorem claim8_witness :
    cancelSession (cancelSession ⟨true, false⟩) = cancelSession ⟨true, false⟩ ∧
    createElasticRules gAll (Except.ok ()) (fun _ => Except.ok snapDone)
        (some (CancelPoint.beforePoll 2)) =
      createElasticRules gAll (Except.ok ()) (fun _ => Except.ok snapDone) none :=
  ⟨claim8_cancel_idempotent.1 ⟨true, false⟩,
   claim8_cancel_idempotent.2 gAll (fun _ => snapDone) 1 2 (by decide)
     (fun j h1 h2 => by omega) (by decide) (by omega) (by omega) (by omega)⟩

/-- Claim C9 (confirmed): if any of the five gating props is `null` or
`false`, the session trace is just the promise resolving `false`: the trigger
is never called, no status query is made, and no state or loading flag is
written. -/
theorem claim9_gates_block_everything (g : Gates) (trigger : Except Unit Unit)
    (q : Nat → Except Unit StatusSnapshot) (cp : Option CancelPoint)
    (h : ¬(g.canUserCRUD = some true ∧ g.hasIndexWrite = some true ∧
           g.isAuthenticated = some true ∧ g.hasEncryptionKey = some true ∧
           g.isSignalIndexExists = some true)) :
    createElasticRules g trigger q cp = [Event.resolveP false] ∧
    Event.triggerCall ∉ createElasticRules g trigger q cp ∧
    qCalls (createElasticRules g trigger q cp) = 0 := by
  have hgp : gatesPass g = false := by
    cases hb : gatesPass g with
    | false => rfl
    | true =>
      exfalso
      apply h
      simp only [gatesPass, Bool.and_eq_true, truthy_eq_true] at hb
      exact ⟨hb.1.1.1.1, hb.1.1.1.2, hb.1.1.2, hb.1.2, hb.2⟩
  have htr : createElasticRules g trigger q cp = [Event.resolveP false] := by
    simp [createElasticRules, hgp]
  exact ⟨htr, by rw [htr]; simp, by rw [htr]; rfl⟩

/-- Claim C9 witness: the theorem applied with `isAuthenticated = null`. -/
theorem claim9_witness :
    createElasticRules
      { canUserCRUD := some true, hasIndexWrite := some true,
        isAuthenticated := none, hasEncryptionKey := some true,
        isSignalIndexExists := some true }
      (Except.ok ()) (fun _ => Except.ok snapDone) none = [Event.resolveP false] :=
  (claim9_gates_block_everything
    { canUserCRUD := some true, hasIndexWrite := some true,
      isAuthenticated := none, hasEncryptionKey := some true,
      isSignalIndexExists := some true }
    (Except.ok ()) (fun _ => Except.ok snapDone) none
    (by simp)).1

/-- Claim C10 counterexample: the status record holds seven counter fields,
not six, so the claim's enumeration of the reset is off by one field. -/
theorem claim10_counterexample :
    (counterFields resetDataStatus).length = 7 ∧
    ¬ (counterFields resetDataStatus).length = 6 := by
  decide

/-- Claim C10 (amended): when the initial status fetch fails while the hook is
subscribed, the record is reset in a single `setData` with all seven counter
fields and both callback fields null, exactly one fetch-failure toast is
emitted, and loading ends `false`. -/
theorem claim10_reset_on_fetch_failure :
    fetchPrePackagedRules true (Except.error ()) =
      [Event.setLoading true, Event.setData resetDataStatus,
       Event.toastFetchFailure, Event.setLoading false] ∧
    (∀ x ∈ counterFields resetDataStatus, x = none) ∧
    resetDataStatus.createPrePackagedRules = false ∧
    resetDataStatus.refetchPrePackagedRulesStatus = false ∧
    (fetchPrePackagedRules true (Except.error ())).countP
      isFetchFailureToast = 1 ∧
    lastSetData (fetchPrePackagedRules true (Except.error ())) =
      some resetDataStatus := by
  decide

end UsePrePackagedRules
